import Mathlib

set_option maxRecDepth 4000

/-!
# FORD Score engine — shallow embedding

A verification development for the FORD score repository
(`config.py`, `prediction.py`, `app.py`).  The scoring engine
`compute_prediction` of `prediction.py` is embedded shallowly:

* Python floats are modelled as exact rationals (`ℚ`); every comparison the
  engine performs is against small integer thresholds, so exactness never
  changes a predicate outcome on the inputs the claims are about.
* A raw input value is either a number or a string (`Val`); an input mapping
  is a record of optional raw values (`Inputs`), one per field the engine
  reads (plus `bmi`, which the input form of `config.py` collects).
* Exceptions raised by the engine (`ValueError` from `float(...)` on a
  non-numeric value, `ZeroDivisionError` from the BMI formula when
  `height_in` is zero) are modelled by `Option`: `none` is a raised error.
-/

namespace Ford

/-- A raw value in the input mapping: a number or a string. -/
inductive Val where
  | num (q : ℚ)
  | str (s : String)
deriving DecidableEq, Repr

/-- Exact value of a list of decimal digit characters. -/
def digitsVal (cs : List Char) : ℚ :=
  cs.foldl (fun a c => a * 10 + ((c.toNat : ℚ) - 48)) 0

/-- Exact value of `intPart.fracPart`. -/
def decimalVal (intPart fracPart : List Char) : ℚ :=
  digitsVal intPart + digitsVal fracPart / (10 : ℚ) ^ fracPart.length

/-- Models Python `float(s)` on a string: an optional sign followed by a
plain decimal literal parses to its exact value; any other string
(e.g. `"abc"`) raises `ValueError`, modelled as `none`.  (Python also
accepts exponents, `inf`, `nan` and surrounding whitespace; those forms
never arise in the claims and are left unparsed.) -/
def floatOfString (s : String) : Option ℚ :=
  let p : ℚ × List Char :=
    match s.data with
    | '-' :: rest => (-1, rest)
    | '+' :: rest => (1, rest)
    | cs => (1, cs)
  let sign := p.1
  let cs := p.2
  let intPart := cs.takeWhile (fun c => c ≠ '.')
  let rest := cs.drop intPart.length
  match rest with
  | [] =>
      if intPart.all Char.isDigit && !intPart.isEmpty then
        some (sign * digitsVal intPart)
      else none
  | '.' :: frac =>
      if intPart.all Char.isDigit && frac.all Char.isDigit &&
          !(intPart.isEmpty && frac.isEmpty) then
        some (sign * decimalVal intPart frac)
      else none
  | _ => none

/-- Models Python `float(v)` on a raw value. -/
def pyFloat : Val → Option ℚ
  | .num q => some q
  | .str s => floatOfString s

/-- Models `float(inputs.get(key, default))`: an absent field takes the
documented default; a present field goes through `float(...)`, which can
raise (`none`). -/
def coerceNum : Option Val → ℚ → Option ℚ
  | none, d => some d
  | some v, _ => pyFloat v

/-- The input mapping handed to `compute_prediction`.  One optional raw
value per field the engine reads; `bmi` is included because the input form
declared in `config.py` (`VARIABLES`) collects it and `app.py` passes it. -/
structure Inputs where
  age : Option Val := none
  sex : Option Val := none
  gcs : Option Val := none
  sbp : Option Val := none
  hr : Option Val := none
  rr : Option Val := none
  height_in : Option Val := none
  weight_lb : Option Val := none
  bmi : Option Val := none
  fracture_site : Option Val := none
  mechanism : Option Val := none
  transport : Option Val := none
  insurance : Option Val := none
deriving DecidableEq, Repr

/-- The normalized record: lines 25-37 of `prediction.py` evaluated. -/
structure NormRecord where
  age : ℚ
  sex : Val
  gcs : ℚ
  sbp : ℚ
  hr : ℚ
  rr : ℚ
  height_in : ℚ
  weight_lb : ℚ
  bmi : ℚ
  fracture_site : Val
  mechanism : Val
  transport : Val
  insurance : Val
deriving DecidableEq, Repr

/-- Normalization phase of `compute_prediction` (`prediction.py` lines
25-37): fill absent fields with the documented defaults, coerce the numeric
fields with `float(...)`, and derive `bmi = weight_lb / height_in² × 703`.
The supplied `inputs.bmi` is never consulted (the source reads only the
thirteen keys below, and `bmi` is not among them).  `none` models a raised
exception: `ValueError` from `float`, or `ZeroDivisionError` when
`height_in` is zero. -/
def normalize (i : Inputs) : Option NormRecord := do
  let age ← coerceNum i.age 50
  let sex := i.sex.getD (.str "Male")
  let gcs ← coerceNum i.gcs 15
  let sbp ← coerceNum i.sbp 120
  let hr ← coerceNum i.hr 75
  let rr ← coerceNum i.rr 16
  let height_in ← coerceNum i.height_in 68
  let weight_lb ← coerceNum i.weight_lb 170
  if height_in = 0 then
    none
  else
    let bmi := weight_lb / height_in ^ 2 * 703
    let fracture_site := i.fracture_site.getD (.str "Other")
    let mechanism := i.mechanism.getD (.str "Fall")
    let transport := i.transport.getD (.str "Ambulance/Air")
    let insurance := i.insurance.getD (.str "Self-pay")
    some ⟨age, sex, gcs, sbp, hr, rr, height_in, weight_lb, bmi,
          fracture_site, mechanism, transport, insurance⟩

/-- One entry of the `components` list before the `value` pass. -/
structure Component where
  label : String
  condition : String
  met : Bool
  points : ℤ
deriving DecidableEq, Repr

/-- One entry of the `components` list after `comp["value"]` is set. -/
structure ValuedComp where
  label : String
  condition : String
  met : Bool
  points : ℤ
  value : ℤ
deriving DecidableEq, Repr

/-- The 19-rule catalog evaluated on a normalized record
(`prediction.py` lines 39-154), in source order. -/
def components0 (r : NormRecord) : List Component :=
  [ ⟨"GCS Severe (≤ 8)", "GCS ≤ 8", decide (r.gcs ≤ 8), 6⟩,
    ⟨"Hip/Femur Fracture", "Fracture site is Hip/Femur or Both",
      decide (r.fracture_site = .str "Hip/Femur" ∨ r.fracture_site = .str "Both"), 5⟩,
    ⟨"Resp Rate Low (< 12)", "RR < 12", decide (r.rr < 12), 5⟩,
    ⟨"Insurance: Medicare", "Insurance = Medicare",
      decide (r.insurance = .str "Medicare"), 4⟩,
    ⟨"SBP Hypotensive (< 90)", "SBP < 90", decide (r.sbp < 90), 4⟩,
    ⟨"Insurance: Other", "Insurance = Other",
      decide (r.insurance = .str "Other"), 4⟩,
    ⟨"Age ≥ 75", "Age ≥ 75", decide (75 ≤ r.age), 3⟩,
    ⟨"Axial Fracture (Spine/Rib/Pelvis)", "Fracture site is Axial or Both",
      decide (r.fracture_site = .str "Axial (Spine/Rib/Pelvis)" ∨ r.fracture_site = .str "Both"), 3⟩,
    ⟨"Insurance: Private", "Insurance = Private",
      decide (r.insurance = .str "Private"), 3⟩,
    ⟨"Insurance: Charity", "Insurance = Charity",
      decide (r.insurance = .str "Charity"), 3⟩,
    ⟨"GCS Moderate (9-12)", "9 ≤ GCS ≤ 12",
      decide (9 ≤ r.gcs ∧ r.gcs ≤ 12), 3⟩,
    ⟨"BMI ≥ 40 (Class III Obesity)", "BMI ≥ 40", decide (40 ≤ r.bmi), 2⟩,
    ⟨"Age 65-74", "65 ≤ Age ≤ 74", decide (65 ≤ r.age ∧ r.age ≤ 74), 1⟩,
    ⟨"Female", "Sex = Female", decide (r.sex = .str "Female"), 1⟩,
    ⟨"Resp Rate High (> 20)", "RR > 20", decide (20 < r.rr), 1⟩,
    ⟨"Heart Rate Tachycardic (≥ 100)", "HR ≥ 100", decide (100 ≤ r.hr), 1⟩,
    ⟨"Transport: Private Vehicle", "Transport = Private Vehicle",
      decide (r.transport = .str "Private Vehicle"), -2⟩,
    ⟨"Mechanism: Assault", "Mechanism = Assault",
      decide (r.mechanism = .str "Assault"), -3⟩,
    ⟨"Transport: Walk-in", "Transport = Walk-in",
      decide (r.transport = .str "Walk-in"), -4⟩ ]

/-- `comp["value"] = comp["points"] if comp["met"] else 0`
(`prediction.py` lines 156-157). -/
def addValue (c : Component) : ValuedComp :=
  ⟨c.label, c.condition, c.met, c.points, if c.met then c.points else 0⟩

/-- One entry of `RISK_LEVELS` in `config.py`. -/
structure RiskLevel where
  max_score : ℤ
  label : String
  color : String
  nonhome_rate : ℚ
deriving DecidableEq, Repr

/-- `RISK_LEVELS` from `config.py`. -/
def RISK_LEVELS : List RiskLevel :=
  [ ⟨1, "Low", "green", 1.2⟩,
    ⟨3, "Low-Moderate", "orange", 3.1⟩,
    ⟨6, "Moderate-High", "orange", 7.0⟩,
    ⟨10, "High", "red", 26.4⟩ ]

/-- `SCORE_RATES` from `config.py`. -/
def SCORE_RATES : List (ℤ × ℚ) :=
  [ (0, 0.7), (1, 1.7), (2, 2.8), (3, 2.9), (4, 3.9), (5, 9.6),
    (6, 9.3), (7, 14.7), (8, 18.0), (9, 22.9), (10, 44.8) ]

/-- The rate-table entry for a score, if any. -/
def rateFind (s : ℤ) : Option (ℤ × ℚ) :=
  SCORE_RATES.find? (fun p => decide (p.1 = s))

/-- `SCORE_RATES.get(score, 0.0)` (`prediction.py` line 162): a missing
entry silently yields the default `0.0`. -/
def scoreRatesGet (s : ℤ) : ℚ :=
  ((rateFind s).map (fun p => p.2)).getD 0

/-- The first risk band whose `max_score` bound admits the score, if any. -/
def riskFind (s : ℤ) : Option RiskLevel :=
  RISK_LEVELS.find? (fun l => decide (s ≤ l.max_score))

/-- The band-selection loop (`prediction.py` lines 164-172): the risk
fields start at `"" / "green" / 0.0` and the first band with
`score ≤ max_score` overwrites them; if no band matches, the initial
defaults are returned unchanged. -/
def selectRisk (s : ℤ) : String × String × ℚ :=
  match riskFind s with
  | some l => (l.label, l.color, l.nonhome_rate)
  | none => ("", "green", 0)

/-- The structured result of `compute_prediction`. -/
structure Prediction where
  score : ℤ
  raw_score : ℤ
  nonhome_pct : ℚ
  risk_label : String
  risk_color : String
  risk_nonhome_pct : ℚ
  components : List ValuedComp
deriving DecidableEq, Repr

instance : Inhabited Prediction := ⟨⟨0, 0, 0, "", "", 0, []⟩⟩

/-- Python `min(a, b)` on integers (first argument on ties). -/
def pymin (a b : ℤ) : ℤ := if a ≤ b then a else b

/-- Python `max(a, b)` on integers (first argument on ties). -/
def pymax (a b : ℤ) : ℤ := if b ≤ a then a else b

/-- Scoring phase of `compute_prediction` (`prediction.py` lines 39-182)
on a normalized record: evaluate the 19 rules, sum the values, clamp
with `max(0, min(10, raw_score))`, and perform the two lookups. -/
def predictionOf (r : NormRecord) : Prediction :=
  let comps := (components0 r).map addValue
  let raw_score := (comps.map (fun c => c.value)).sum
  let score := pymax 0 (pymin 10 raw_score)
  let nonhome_pct := scoreRatesGet score
  let risk := selectRisk score
  ⟨score, raw_score, nonhome_pct, risk.1, risk.2.1, risk.2.2, comps⟩

/-- `compute_prediction` of `prediction.py`: normalize, then score.
`none` models a raised exception. -/
def compute_prediction (i : Inputs) : Option Prediction :=
  (normalize i).map predictionOf


/-- `components0` with the BMI predicate outcome abstracted into a Boolean
argument; used only to evaluate the engine at concrete inputs, where the
BMI comparison is settled by `norm_num` first.  `components0B r (decide
(40 ≤ r.bmi))` is definitionally `components0 r`. -/
def components0B (r : NormRecord) (bmiMet : Bool) : List Component :=
  [ ⟨"GCS Severe (≤ 8)", "GCS ≤ 8", decide (r.gcs ≤ 8), 6⟩,
    ⟨"Hip/Femur Fracture", "Fracture site is Hip/Femur or Both",
      decide (r.fracture_site = .str "Hip/Femur" ∨ r.fracture_site = .str "Both"), 5⟩,
    ⟨"Resp Rate Low (< 12)", "RR < 12", decide (r.rr < 12), 5⟩,
    ⟨"Insurance: Medicare", "Insurance = Medicare",
      decide (r.insurance = .str "Medicare"), 4⟩,
    ⟨"SBP Hypotensive (< 90)", "SBP < 90", decide (r.sbp < 90), 4⟩,
    ⟨"Insurance: Other", "Insurance = Other",
      decide (r.insurance = .str "Other"), 4⟩,
    ⟨"Age ≥ 75", "Age ≥ 75", decide (75 ≤ r.age), 3⟩,
    ⟨"Axial Fracture (Spine/Rib/Pelvis)", "Fracture site is Axial or Both",
      decide (r.fracture_site = .str "Axial (Spine/Rib/Pelvis)" ∨ r.fracture_site = .str "Both"), 3⟩,
    ⟨"Insurance: Private", "Insurance = Private",
      decide (r.insurance = .str "Private"), 3⟩,
    ⟨"Insurance: Charity", "Insurance = Charity",
      decide (r.insurance = .str "Charity"), 3⟩,
    ⟨"GCS Moderate (9-12)", "9 ≤ GCS ≤ 12",
      decide (9 ≤ r.gcs ∧ r.gcs ≤ 12), 3⟩,
    ⟨"BMI ≥ 40 (Class III Obesity)", "BMI ≥ 40", bmiMet, 2⟩,
    ⟨"Age 65-74", "65 ≤ Age ≤ 74", decide (65 ≤ r.age ∧ r.age ≤ 74), 1⟩,
    ⟨"Female", "Sex = Female", decide (r.sex = .str "Female"), 1⟩,
    ⟨"Resp Rate High (> 20)", "RR > 20", decide (20 < r.rr), 1⟩,
    ⟨"Heart Rate Tachycardic (≥ 100)", "HR ≥ 100", decide (100 ≤ r.hr), 1⟩,
    ⟨"Transport: Private Vehicle", "Transport = Private Vehicle",
      decide (r.transport = .str "Private Vehicle"), -2⟩,
    ⟨"Mechanism: Assault", "Mechanism = Assault",
      decide (r.mechanism = .str "Assault"), -3⟩,
    ⟨"Transport: Walk-in", "Transport = Walk-in",
      decide (r.transport = .str "Walk-in"), -4⟩ ]

/-- `predictionOf` via `components0B`; see `predictionOf_toB`. -/
def predictionOfB (r : NormRecord) (bmiMet : Bool) : Prediction :=
  let comps := (components0B r bmiMet).map addValue
  let raw_score := (comps.map (fun c => c.value)).sum
  let score := pymax 0 (pymin 10 raw_score)
  let nonhome_pct := scoreRatesGet score
  let risk := selectRisk score
  ⟨score, raw_score, nonhome_pct, risk.1, risk.2.1, risk.2.2, comps⟩

lemma predictionOf_toB (r : NormRecord) :
    predictionOf r = predictionOfB r (decide (40 ≤ r.bmi)) := rfl

/-- The normalized record of the empty input mapping. -/
def baseRecord : NormRecord :=
  ⟨50, .str "Male", 15, 120, 75, 16, 68, 170, 170 / 68 ^ 2 * 703,
   .str "Other", .str "Fall", .str "Ambulance/Air", .str "Self-pay"⟩

lemma normalize_empty : normalize {} = some baseRecord := rfl

lemma base_bmi_lt : (decide (40 ≤ baseRecord.bmi)) = false := by
  simp only [decide_eq_false_iff_not]
  show ¬ (40 ≤ (170:ℚ) / 68 ^ 2 * 703)
  norm_num

lemma compute_empty :
    compute_prediction {} = some (predictionOfB baseRecord false) := by
  have h1 : compute_prediction {} = some (predictionOfB baseRecord (decide (40 ≤ baseRecord.bmi))) := rfl
  rw [h1, base_bmi_lt]

/-- Prediction at the all-defaults (empty) input mapping. -/
def basePrediction : Prediction := predictionOfB baseRecord false



/-!
## Theorems for the claims
-/

lemma sum_value_eq_filter (l : List ValuedComp)
    (hv : ∀ c ∈ l, c.value = if c.met then c.points else 0) :
    (l.map (fun c => c.value)).sum =
      ((l.filter (fun c => c.met)).map (fun c => c.points)).sum := by
  induction l with
  | nil => rfl
  | cons c t ih =>
      have hc := hv c (List.mem_cons_self c t)
      have ht := fun d hd => hv d (List.mem_cons_of_mem c hd)
      by_cases h : c.met
      · simp [List.filter_cons, h, hc, ih ht]
      · simp [List.filter_cons, h, hc, ih ht]

lemma compute_eq_predictionOf {i : Inputs} {p : Prediction}
    (h : compute_prediction i = some p) :
    ∃ r, normalize i = some r ∧ p = predictionOf r := by
  cases hn : normalize i with
  | none => rw [compute_prediction, hn] at h; simp at h
  | some r =>
      rw [compute_prediction, hn] at h
      exact ⟨r, rfl, (Option.some.inj h).symm⟩

lemma value_spec (r : NormRecord) :
    ∀ c ∈ (predictionOf r).components, c.value = if c.met then c.points else 0 := by
  intro c hc
  have h : (predictionOf r).components = (components0 r).map addValue := rfl
  rw [h] at hc
  obtain ⟨c0, _, rfl⟩ := List.mem_map.mp hc
  rfl

/-- C1: for every input mapping on which `compute_prediction` returns a
result, `raw_score` is the exact sum of the signed point values of the
rules whose predicate is true, and the sum is order-independent: any
permutation of the evaluated component list has the same sum of values. -/
theorem C1_raw_score_is_order_independent_sum (i : Inputs) (p : Prediction)
    (h : compute_prediction i = some p) (l : List ValuedComp)
    (hl : p.components.Perm l) :
    p.raw_score = ((p.components.filter (fun c => c.met)).map (fun c => c.points)).sum ∧
    (l.map (fun c => c.value)).sum = p.raw_score := by
  obtain ⟨r, hn, rfl⟩ := compute_eq_predictionOf h
  have hraw : (predictionOf r).raw_score =
      ((predictionOf r).components.map (fun c => c.value)).sum := rfl
  constructor
  · rw [hraw, sum_value_eq_filter _ (value_spec r)]
  · rw [hraw]
    exact ((hl.map (fun c => c.value)).sum_eq).symm

/-- Witness for C1 at the empty input mapping, with the reversed component
list as the permutation. -/
theorem C1_witness :
    compute_prediction {} = some basePrediction ∧
    (basePrediction.raw_score =
      ((basePrediction.components.filter (fun c => c.met)).map (fun c => c.points)).sum ∧
     ((basePrediction.components.reverse).map (fun c => c.value)).sum =
       basePrediction.raw_score) :=
  ⟨compute_empty,
   C1_raw_score_is_order_independent_sum {} basePrediction compute_empty
     basePrediction.components.reverse (List.reverse_perm _).symm⟩

/-- C2: every returned `score` lies in `[0, 10]`, equals
`max(0, min(10, raw_score))` (Mathlib's `max`/`min` as well as the embedded
Python ones), and `raw_score` itself is the unsaturated sum of the
component values — clamping happens only after the summation. -/
theorem C2_score_is_clamped_raw (i : Inputs) (p : Prediction)
    (h : compute_prediction i = some p) :
    0 ≤ p.score ∧ p.score ≤ 10 ∧
    p.score = pymax 0 (pymin 10 p.raw_score) ∧
    p.score = max 0 (min 10 p.raw_score) ∧
    p.raw_score = (p.components.map (fun c => c.value)).sum := by
  obtain ⟨r, hn, rfl⟩ := compute_eq_predictionOf h
  have hs : (predictionOf r).score = pymax 0 (pymin 10 (predictionOf r).raw_score) := rfl
  refine ⟨?_, ?_, hs, ?_, rfl⟩
  · rw [hs]; unfold pymax pymin; split_ifs <;> omega
  · rw [hs]; unfold pymax pymin; split_ifs <;> omega
  · rw [hs]; unfold pymax pymin
    rcases le_total (predictionOf r).raw_score 0 with h0 | h0 <;>
      rcases le_total (predictionOf r).raw_score 10 with h1 | h1 <;>
      split_ifs <;> omega

/-- Witness for C2 at the empty input mapping. -/
theorem C2_witness :
    compute_prediction {} = some basePrediction ∧
    (0 ≤ basePrediction.score ∧ basePrediction.score ≤ 10 ∧
     basePrediction.score = pymax 0 (pymin 10 basePrediction.raw_score) ∧
     basePrediction.score = max 0 (min 10 basePrediction.raw_score) ∧
     basePrediction.raw_score = (basePrediction.components.map (fun c => c.value)).sum) :=
  ⟨compute_empty, C2_score_is_clamped_raw {} basePrediction compute_empty⟩

/-- C8: the engine is deterministic — two invocations on the same input
mapping agree on every field of the result.  (Purity is inherent to the
embedding: the source performs no I/O and touches no mutable state other
than the per-call component dictionaries.) -/
theorem C8_deterministic (i : Inputs) (p q : Prediction)
    (h1 : compute_prediction i = some p) (h2 : compute_prediction i = some q) :
    p.score = q.score ∧ p.raw_score = q.raw_score ∧
    p.nonhome_pct = q.nonhome_pct ∧ p.risk_label = q.risk_label ∧
    p.risk_color = q.risk_color ∧ p.risk_nonhome_pct = q.risk_nonhome_pct ∧
    p.components = q.components ∧ p = q := by
  have h : p = q := Option.some.inj ((h1.symm).trans h2)
  subst h
  exact ⟨rfl, rfl, rfl, rfl, rfl, rfl, rfl, rfl⟩

/-- Witness for C8 at the empty input mapping. -/
theorem C8_witness :
    compute_prediction {} = some basePrediction ∧
    (basePrediction.score = basePrediction.score ∧
     basePrediction.raw_score = basePrediction.raw_score ∧
     basePrediction.nonhome_pct = basePrediction.nonhome_pct ∧
     basePrediction.risk_label = basePrediction.risk_label ∧
     basePrediction.risk_color = basePrediction.risk_color ∧
     basePrediction.risk_nonhome_pct = basePrediction.risk_nonhome_pct ∧
     basePrediction.components = basePrediction.components ∧
     basePrediction = basePrediction) :=
  ⟨compute_empty,
   C8_deterministic {} basePrediction basePrediction compute_empty compute_empty⟩

/-- The severe-trauma scenario input: gcs 6, fracture site Hip/Femur,
rr 10, sbp 80, everything else absent. -/
def severeInputs : Inputs :=
  { gcs := some (.num 6), fracture_site := some (.str "Hip/Femur"),
    rr := some (.num 10), sbp := some (.num 80) }

/-- The normalized record of `severeInputs`. -/
def severeRecord : NormRecord :=
  ⟨50, .str "Male", 6, 80, 75, 10, 68, 170, 170 / 68 ^ 2 * 703,
   .str "Hip/Femur", .str "Fall", .str "Ambulance/Air", .str "Self-pay"⟩

lemma compute_severe :
    compute_prediction severeInputs = some (predictionOfB severeRecord false) := by
  have h1 : compute_prediction severeInputs =
      some (predictionOfB severeRecord (decide (40 ≤ severeRecord.bmi))) := rfl
  have hb : (decide (40 ≤ severeRecord.bmi)) = false := by
    simp only [decide_eq_false_iff_not]
    show ¬ (40 ≤ (170:ℚ) / 68 ^ 2 * 703)
    norm_num
  rw [h1, hb]

/-- C9: on the severe-trauma scenario (gcs 6, Hip/Femur fracture, rr 10,
sbp 80) exactly the rules GCS Severe, Hip/Femur Fracture, Resp Rate Low
and SBP Hypotensive are met, `raw_score = 20`, `score = 10`,
`nonhome_pct = 44.8` and `risk_label = "High"`. -/
theorem C9_severe_trauma_scenario :
    (compute_prediction severeInputs).map
      (fun p => (p.components.map (fun c => c.met), p.raw_score, p.score,
                 p.nonhome_pct, p.risk_label)) =
    some ([true, true, true, false, true, false, false, false, false, false,
           false, false, false, false, false, false, false, false, false],
          20, 10, (44.8 : ℚ), "High") := by
  rw [compute_severe]
  rfl


/-- Lower bound of the k-th risk band, derived per the band invariant:
the first band starts at 0 and each later band starts one above the
previous band's `max_score` (`max_score` values 1, 3, 6, 10 give lower
bounds 0, 2, 4, 7). -/
def bandLower : Fin 4 → ℤ
  | 0 => 0
  | 1 => 2
  | 2 => 4
  | 3 => 7

/-- The k-th entry of `RISK_LEVELS`. -/
def bandAt (k : Fin 4) : RiskLevel := RISK_LEVELS.get k

/-- C3: band selection scans `RISK_LEVELS` in ascending `max_score` order
and takes the first band with `score ≤ max_score`; every score 0-10 lies in
exactly one band, and the selected label/color/rate are Low/green/1.2 for
0-1, Low-Moderate/orange/3.1 for 2-3, Moderate-High/orange/7.0 for 4-6,
and High/red/26.4 for 7-10. -/
theorem C3_risk_bands (s : ℤ) (h0 : 0 ≤ s) (h10 : s ≤ 10) :
    (∃! k : Fin 4, bandLower k ≤ s ∧ s ≤ (bandAt k).max_score) ∧
    (riskFind s = RISK_LEVELS.find? (fun l => decide (s ≤ l.max_score))) ∧
    (s ≤ 1 → selectRisk s = ("Low", "green", 1.2)) ∧
    (2 ≤ s ∧ s ≤ 3 → selectRisk s = ("Low-Moderate", "orange", 3.1)) ∧
    (4 ≤ s ∧ s ≤ 6 → selectRisk s = ("Moderate-High", "orange", 7.0)) ∧
    (7 ≤ s → selectRisk s = ("High", "red", 26.4)) := by
  refine ⟨?_, rfl, ?_, ?_, ?_, ?_⟩
  · interval_cases s <;> (simp only [ExistsUnique]; decide)
  · intro h; interval_cases s <;> rfl
  · rintro ⟨h2, h3⟩; interval_cases s <;> rfl
  · rintro ⟨h4, h6⟩; interval_cases s <;> rfl
  · intro h; interval_cases s <;> rfl

/-- Witness for C3 at score 5. -/
theorem C3_witness :
    (0 : ℤ) ≤ 5 ∧ (5 : ℤ) ≤ 10 ∧
    ((∃! k : Fin 4, bandLower k ≤ (5 : ℤ) ∧ (5 : ℤ) ≤ (bandAt k).max_score) ∧
     (riskFind 5 = RISK_LEVELS.find? (fun l => decide ((5 : ℤ) ≤ l.max_score))) ∧
     ((5 : ℤ) ≤ 1 → selectRisk 5 = ("Low", "green", 1.2)) ∧
     (2 ≤ (5 : ℤ) ∧ (5 : ℤ) ≤ 3 → selectRisk 5 = ("Low-Moderate", "orange", 3.1)) ∧
     (4 ≤ (5 : ℤ) ∧ (5 : ℤ) ≤ 6 → selectRisk 5 = ("Moderate-High", "orange", 7.0)) ∧
     (7 ≤ (5 : ℤ) → selectRisk 5 = ("High", "red", 26.4))) :=
  ⟨by decide, by decide, C3_risk_bands 5 (by decide) (by decide)⟩

/-- The input mapping that supplies `bmi = 50` and nothing else. -/
def bmi50Inputs : Inputs := { bmi := some (.num 50) }

/-- C4 (code evaluation at the failing input): supplying `bmi = 50` — a
value that satisfies the BMI ≥ 40 predicate — leaves the result identical
to the empty mapping: the BMI rule is evaluated against the derived value
`170 / 68² × 703 ≈ 25.8`, every rule is unmet and `raw_score = 0`.  The
supplied `bmi` is ignored unconditionally, so the derivation is not
restricted to mappings where `bmi` is absent. -/
theorem C4_supplied_bmi_ignored :
    compute_prediction bmi50Inputs = compute_prediction {} ∧
    (compute_prediction bmi50Inputs).map
      (fun p => (p.components.map (fun c => c.met), p.raw_score)) =
      some (List.replicate 19 false, 0) := by
  have h1 : compute_prediction bmi50Inputs =
      some (predictionOfB baseRecord (decide (40 ≤ baseRecord.bmi))) := rfl
  rw [h1, base_bmi_lt, compute_empty]
  exact ⟨rfl, rfl⟩

/-- C5 (counterexample to the claim as stated): at a score with no rate
entry and no matching band (score 11 — unreachable after clamping, but the
behavior the claim describes), the engine's lookup machinery signals
nothing: `SCORE_RATES.get(score, 0.0)` silently yields the default `0.0`
and the band scan leaves the pre-initialized `"" / "green" / 0.0` in
place.  There is no assertion or error channel. -/
theorem C5_counterexample :
    rateFind 11 = none ∧ scoreRatesGet 11 = 0 ∧
    riskFind 11 = none ∧ selectRisk 11 = ("", "green", 0) :=
  ⟨rfl, rfl, rfl, rfl⟩

/-- C5 (amended): after clamping, the score always lies in 0-10, where
both static tables are total — so a lookup miss cannot occur in any run of
`compute_prediction`; and were the lookups ever consulted at an uncovered
score, the code would silently default (`nonhome_pct = 0.0`, risk fields
`"" / green / 0.0`) rather than surface a fatal assertion. -/
theorem C5_lookup_total_after_clamp (s : ℤ) (h0 : 0 ≤ s) (h10 : s ≤ 10) :
    ((rateFind s).isSome ∧ (riskFind s).isSome) ∧
    (∀ i p, compute_prediction i = some p →
      0 ≤ p.score ∧ p.score ≤ 10 ∧ (rateFind p.score).isSome ∧ (riskFind p.score).isSome) ∧
    (∀ t : ℤ, rateFind t = none → scoreRatesGet t = 0) ∧
    (∀ t : ℤ, riskFind t = none → selectRisk t = ("", "green", 0)) := by
  have cover : ∀ u : ℤ, 0 ≤ u → u ≤ 10 → (rateFind u).isSome ∧ (riskFind u).isSome := by
    intro u hu0 hu10
    interval_cases u <;> exact ⟨rfl, rfl⟩
  refine ⟨cover s h0 h10, ?_, ?_, ?_⟩
  · intro i p h
    obtain ⟨r, hn, rfl⟩ := compute_eq_predictionOf h
    have hs : (predictionOf r).score =
        pymax 0 (pymin 10 (predictionOf r).raw_score) := rfl
    have hb : 0 ≤ (predictionOf r).score ∧ (predictionOf r).score ≤ 10 := by
      rw [hs]; unfold pymax pymin; constructor <;> (split_ifs <;> omega)
    exact ⟨hb.1, hb.2, cover _ hb.1 hb.2⟩
  · intro t ht
    simp [scoreRatesGet, ht]
  · intro t ht
    simp [selectRisk, ht]

/-- Witness for C5 at score 5. -/
theorem C5_witness :
    (0 : ℤ) ≤ 5 ∧ (5 : ℤ) ≤ 10 ∧
    (((rateFind 5).isSome ∧ (riskFind 5).isSome) ∧
     (∀ i p, compute_prediction i = some p →
       0 ≤ p.score ∧ p.score ≤ 10 ∧ (rateFind p.score).isSome ∧ (riskFind p.score).isSome) ∧
     (∀ t : ℤ, rateFind t = none → scoreRatesGet t = 0) ∧
     (∀ t : ℤ, riskFind t = none → selectRisk t = ("", "green", 0))) :=
  ⟨by decide, by decide, C5_lookup_total_after_clamp 5 (by decide) (by decide)⟩


/-- C6 (counterexample to the claim as stated): a numeric field holding an
invalid (non-numeric) value is not defaulted — `float("abc")` raises
`ValueError`, a hard failure (modelled as `none`); likewise `height_in = 0`
raises `ZeroDivisionError` in the BMI derivation.  Only absent keys take
the documented defaults. -/
theorem C6_counterexample :
    compute_prediction { age := some (.str "abc") } = none ∧
    compute_prediction { height_in := some (.num 0) } = none :=
  ⟨rfl, rfl⟩

/-- A numeric field that cannot make `float(...)` raise: absent or a
number. -/
def numOk (v : Option Val) : Prop := ∀ s : String, v ≠ some (.str s)

lemma coerceNum_ok (v : Option Val) (d : ℚ) (hv : numOk v) :
    ∃ q, coerceNum v d = some q ∧ (v = none → q = d) := by
  cases v with
  | none => exact ⟨d, rfl, fun _ => rfl⟩
  | some w =>
      cases w with
      | num q => exact ⟨q, rfl, by simp⟩
      | str s => exact absurd rfl (hv s)

lemma coerceNum_height_ok (v : Option Val) (hv : numOk v)
    (h0 : v ≠ some (.num 0)) :
    ∃ q, coerceNum v 68 = some q ∧ q ≠ 0 ∧ (v = none → q = 68) := by
  cases v with
  | none => exact ⟨68, rfl, by norm_num, fun _ => rfl⟩
  | some w =>
      cases w with
      | num q =>
          refine ⟨q, rfl, ?_, by simp⟩
          intro hq
          exact h0 (by rw [hq])
      | str s => exact absurd rfl (hv s)

/-- C6 (amended): when every numeric field is absent or holds a number and
`height_in` is not zero, `compute_prediction` succeeds, and each absent
numeric field is normalized to its documented default. -/
theorem C6_missing_numeric_defaulted (i : Inputs)
    (h : numOk i.age ∧ numOk i.gcs ∧ numOk i.sbp ∧ numOk i.hr ∧ numOk i.rr ∧
         numOk i.height_in ∧ numOk i.weight_lb)
    (hh : i.height_in ≠ some (.num 0)) :
    (compute_prediction i).isSome ∧
    ∃ r, normalize i = some r ∧
      (i.age = none → r.age = 50) ∧ (i.gcs = none → r.gcs = 15) ∧
      (i.sbp = none → r.sbp = 120) ∧ (i.hr = none → r.hr = 75) ∧
      (i.rr = none → r.rr = 16) ∧ (i.height_in = none → r.height_in = 68) ∧
      (i.weight_lb = none → r.weight_lb = 170) := by
  obtain ⟨hA, hG, hS, hH, hR, hHt, hW⟩ := h
  obtain ⟨qa, ea, da⟩ := coerceNum_ok i.age 50 hA
  obtain ⟨qg, eg, dg⟩ := coerceNum_ok i.gcs 15 hG
  obtain ⟨qs, es, ds⟩ := coerceNum_ok i.sbp 120 hS
  obtain ⟨qh, eh, dh⟩ := coerceNum_ok i.hr 75 hH
  obtain ⟨qr, er, dr⟩ := coerceNum_ok i.rr 16 hR
  obtain ⟨qht, eht, hz, dht⟩ := coerceNum_height_ok i.height_in hHt hh
  obtain ⟨qw, ew, dw⟩ := coerceNum_ok i.weight_lb 170 hW
  have hn : normalize i = some
      ⟨qa, i.sex.getD (.str "Male"), qg, qs, qh, qr, qht, qw,
       qw / qht ^ 2 * 703,
       i.fracture_site.getD (.str "Other"), i.mechanism.getD (.str "Fall"),
       i.transport.getD (.str "Ambulance/Air"),
       i.insurance.getD (.str "Self-pay")⟩ := by
    simp [normalize, ea, eg, es, eh, er, eht, ew, hz]
  refine ⟨by simp [compute_prediction, hn], _, hn, ?_, ?_, ?_, ?_, ?_, ?_, ?_⟩
  · intro hx; exact da hx
  · intro hx; exact dg hx
  · intro hx; exact ds hx
  · intro hx; exact dh hx
  · intro hx; exact dr hx
  · intro hx; exact dht hx
  · intro hx; exact dw hx

/-- Witness for C6 at the empty input mapping. -/
theorem C6_witness :
    (numOk (({} : Inputs).age) ∧ numOk (({} : Inputs).gcs) ∧
     numOk (({} : Inputs).sbp) ∧ numOk (({} : Inputs).hr) ∧
     numOk (({} : Inputs).rr) ∧ numOk (({} : Inputs).height_in) ∧
     numOk (({} : Inputs).weight_lb)) ∧
    ({} : Inputs).height_in ≠ some (.num 0) ∧
    ((compute_prediction ({} : Inputs)).isSome ∧
     ∃ r, normalize ({} : Inputs) = some r ∧
      (({} : Inputs).age = none → r.age = 50) ∧
      (({} : Inputs).gcs = none → r.gcs = 15) ∧
      (({} : Inputs).sbp = none → r.sbp = 120) ∧
      (({} : Inputs).hr = none → r.hr = 75) ∧
      (({} : Inputs).rr = none → r.rr = 16) ∧
      (({} : Inputs).height_in = none → r.height_in = 68) ∧
      (({} : Inputs).weight_lb = none → r.weight_lb = 170)) := by
  have hok : ∀ f : Option Val, f = none → numOk f := by
    intro f hf s
    rw [hf]
    exact fun hc => Option.noConfusion hc
  refine ⟨⟨hok _ rfl, hok _ rfl, hok _ rfl, hok _ rfl, hok _ rfl, hok _ rfl, hok _ rfl⟩,
          fun hc => Option.noConfusion hc, ?_⟩
  exact C6_missing_numeric_defaulted {}
    ⟨hok _ rfl, hok _ rfl, hok _ rfl, hok _ rfl, hok _ rfl, hok _ rfl, hok _ rfl⟩
    (fun hc => Option.noConfusion hc)


/-- The five categorical fields of the input form. -/
inductive CatField where
  | sex | fracture_site | mechanism | transport | insurance
deriving DecidableEq, Repr

/-- The declared enum of each categorical field (`config.py`,
`VARIABLES[...]["options"]`). -/
def enumOf : CatField → List String
  | .sex => ["Male", "Female"]
  | .fracture_site => ["Other", "Hip/Femur", "Axial (Spine/Rib/Pelvis)", "Both"]
  | .mechanism => ["Fall", "MVC", "Assault", "Other"]
  | .transport => ["Ambulance/Air", "Private Vehicle", "Walk-in", "Other"]
  | .insurance => ["Self-pay", "Medicare", "Medicaid", "Private", "Charity", "Other"]

/-- Overwrite one categorical field of an input mapping. -/
def setCat (i : Inputs) : CatField → Option Val → Inputs
  | .sex, v => { i with sex := v }
  | .fracture_site, v => { i with fracture_site := v }
  | .mechanism, v => { i with mechanism := v }
  | .transport, v => { i with transport := v }
  | .insurance, v => { i with insurance := v }

/-- Indices (in catalog order) of the rules referencing each categorical
field. -/
def refIdx : CatField → List ℕ
  | .sex => [13]
  | .fracture_site => [1, 7]
  | .mechanism => [17]
  | .transport => [16, 18]
  | .insurance => [3, 5, 8, 9]

/-- Overwrite one categorical field of a normalized record. -/
def setRec (r : NormRecord) : CatField → Val → NormRecord
  | .sex, w => { r with sex := w }
  | .fracture_site, w => { r with fracture_site := w }
  | .mechanism, w => { r with mechanism := w }
  | .transport, w => { r with transport := w }
  | .insurance, w => { r with insurance := w }

/-- The documented default of each categorical field. -/
def catDefault : CatField → Val
  | .sex => .str "Male"
  | .fracture_site => .str "Other"
  | .mechanism => .str "Fall"
  | .transport => .str "Ambulance/Air"
  | .insurance => .str "Self-pay"

lemma normalize_eq (i : Inputs) :
    normalize i =
      match coerceNum i.age 50, coerceNum i.gcs 15, coerceNum i.sbp 120,
            coerceNum i.hr 75, coerceNum i.rr 16, coerceNum i.height_in 68,
            coerceNum i.weight_lb 170 with
      | some qa, some qg, some qs, some qh, some qr, some qht, some qw =>
          if qht = 0 then none
          else some ⟨qa, i.sex.getD (.str "Male"), qg, qs, qh, qr, qht, qw,
                     qw / qht ^ 2 * 703,
                     i.fracture_site.getD (.str "Other"),
                     i.mechanism.getD (.str "Fall"),
                     i.transport.getD (.str "Ambulance/Air"),
                     i.insurance.getD (.str "Self-pay")⟩
      | _, _, _, _, _, _, _ => none := by
  unfold normalize
  rcases ha : coerceNum i.age 50 with _ | qa <;>
  rcases hg : coerceNum i.gcs 15 with _ | qg <;>
  rcases hs : coerceNum i.sbp 120 with _ | qs <;>
  rcases hh : coerceNum i.hr 75 with _ | qh <;>
  rcases hr : coerceNum i.rr 16 with _ | qr <;>
  rcases hht : coerceNum i.height_in 68 with _ | qht <;>
  rcases hw : coerceNum i.weight_lb 170 with _ | qw <;>
  simp [ha, hg, hs, hh, hr, hht, hw]

lemma normalize_setCat (i : Inputs) (f : CatField) (v : Option Val) :
    normalize (setCat i f v) =
      (normalize i).map (fun r => setRec r f (v.getD (catDefault f))) := by
  rw [normalize_eq (setCat i f v), normalize_eq i]
  cases f <;>
  (rcases ha : coerceNum i.age 50 with _ | qa <;>
   rcases hg : coerceNum i.gcs 15 with _ | qg <;>
   rcases hs : coerceNum i.sbp 120 with _ | qs <;>
   rcases hh : coerceNum i.hr 75 with _ | qh <;>
   rcases hr : coerceNum i.rr 16 with _ | qr <;>
   rcases hht : coerceNum i.height_in 68 with _ | qht <;>
   rcases hw : coerceNum i.weight_lb 170 with _ | qw <;>
   simp [setCat, setRec, catDefault, ha, hg, hs, hh, hr, hht, hw] <;>
   split_ifs <;>
   simp [setRec])

/-- A categorical value that triggers none of the rules referencing the
field. -/
def inert : CatField → Val → Prop
  | .sex, v => v ≠ .str "Female"
  | .fracture_site, v => v ≠ .str "Hip/Femur" ∧
      v ≠ .str "Axial (Spine/Rib/Pelvis)" ∧ v ≠ .str "Both"
  | .mechanism, v => v ≠ .str "Assault"
  | .transport, v => v ≠ .str "Private Vehicle" ∧ v ≠ .str "Walk-in"
  | .insurance, v => v ≠ .str "Medicare" ∧ v ≠ .str "Other" ∧
      v ≠ .str "Private" ∧ v ≠ .str "Charity"

lemma inert_of_not_enum (f : CatField) (s : String) (hs : s ∉ enumOf f) :
    inert f (.str s) := by
  cases f
  case sex =>
    simp [enumOf] at hs
    simp [inert]
    exact hs.2
  case fracture_site =>
    simp [enumOf] at hs
    simp [inert]
    exact ⟨hs.2.1, hs.2.2.1, hs.2.2.2⟩
  case mechanism =>
    simp [enumOf] at hs
    simp [inert]
    exact hs.2.2.1
  case transport =>
    simp [enumOf] at hs
    simp [inert]
    exact ⟨hs.2.1, hs.2.2.1⟩
  case insurance =>
    simp [enumOf] at hs
    simp [inert]
    exact ⟨hs.2.1, hs.2.2.2.2.2, hs.2.2.2.1, hs.2.2.2.2.1⟩

lemma inert_default (f : CatField) : inert f (catDefault f) := by
  cases f <;> simp [inert, catDefault]

lemma predictionOf_congr {r1 r2 : NormRecord}
    (h : components0 r1 = components0 r2) : predictionOf r1 = predictionOf r2 := by
  unfold predictionOf
  rw [h]

lemma components0_setRec_congr (r : NormRecord) (f : CatField) (v w : Val)
    (hv : inert f v) (hw : inert f w) :
    components0 (setRec r f v) = components0 (setRec r f w) := by
  cases f
  case sex =>
    simp only [inert] at hv hw
    simp only [components0, setRec]
    rw [decide_eq_false hv, decide_eq_false hw]
  case fracture_site =>
    obtain ⟨hv1, hv2, hv3⟩ := hv
    obtain ⟨hw1, hw2, hw3⟩ := hw
    have hva : ¬(v = .str "Hip/Femur" ∨ v = .str "Both") := by
      rintro (h | h) <;> contradiction
    have hvb : ¬(v = .str "Axial (Spine/Rib/Pelvis)" ∨ v = .str "Both") := by
      rintro (h | h) <;> contradiction
    have hwa : ¬(w = .str "Hip/Femur" ∨ w = .str "Both") := by
      rintro (h | h) <;> contradiction
    have hwb : ¬(w = .str "Axial (Spine/Rib/Pelvis)" ∨ w = .str "Both") := by
      rintro (h | h) <;> contradiction
    simp only [components0, setRec]
    rw [decide_eq_false hva, decide_eq_false hvb,
        decide_eq_false hwa, decide_eq_false hwb]
  case mechanism =>
    simp only [inert] at hv hw
    simp only [components0, setRec]
    rw [decide_eq_false hv, decide_eq_false hw]
  case transport =>
    obtain ⟨hv1, hv2⟩ := hv
    obtain ⟨hw1, hw2⟩ := hw
    simp only [components0, setRec]
    rw [decide_eq_false hv1, decide_eq_false hv2,
        decide_eq_false hw1, decide_eq_false hw2]
  case insurance =>
    obtain ⟨hv1, hv2, hv3, hv4⟩ := hv
    obtain ⟨hw1, hw2, hw3, hw4⟩ := hw
    simp only [components0, setRec]
    rw [decide_eq_false hv1, decide_eq_false hv2, decide_eq_false hv3,
        decide_eq_false hv4, decide_eq_false hw1, decide_eq_false hw2,
        decide_eq_false hw3, decide_eq_false hw4]

/-- C7: for every categorical field and every string value outside its
declared enum, the prediction is identical (in every field) to the one
computed with that field absent from the mapping, no error is raised, and
every rule referencing that field evaluates to `met = false`. -/
theorem C7_unrecognized_categorical (i : Inputs) (f : CatField) (s : String)
    (hs : s ∉ enumOf f) :
    compute_prediction (setCat i f (some (.str s))) =
      compute_prediction (setCat i f none) ∧
    ∀ p, compute_prediction (setCat i f (some (.str s))) = some p →
      ∀ k ∈ refIdx f, (p.components[k]?.map (fun c => c.met)) = some false := by
  have hv := inert_of_not_enum f s hs
  have hw := inert_default f
  have h1 : normalize (setCat i f (some (.str s))) =
      (normalize i).map (fun r => setRec r f (.str s)) := by
    simpa using normalize_setCat i f (some (.str s))
  have h2 : normalize (setCat i f none) =
      (normalize i).map (fun r => setRec r f (catDefault f)) := by
    simpa using normalize_setCat i f none
  constructor
  · unfold compute_prediction
    rw [h1, h2]
    cases hn : normalize i with
    | none => rfl
    | some r =>
        simp only [Option.map_some']
        exact congrArg some
          (predictionOf_congr (components0_setRec_congr r f _ _ hv hw))
  · intro p hp k hk
    obtain ⟨r0, hn0, rfl⟩ := compute_eq_predictionOf hp
    rw [h1] at hn0
    cases hn : normalize i with
    | none => rw [hn] at hn0; exact absurd hn0 (by simp)
    | some r =>
        rw [hn] at hn0
        have hr0 : r0 = setRec r f (.str s) := by simpa using hn0.symm
        subst hr0
        cases f
        case sex =>
          simp only [refIdx, List.mem_singleton] at hk
          subst hk
          have hrfl : ((predictionOf (setRec r CatField.sex (Val.str s))).components[13]?).map
              (fun c => c.met) = some (decide (Val.str s = Val.str "Female")) := rfl
          rw [hrfl, decide_eq_false hv]
        case fracture_site =>
          obtain ⟨hv1, hv2, hv3⟩ := hv
          have hva : ¬(Val.str s = .str "Hip/Femur" ∨ Val.str s = .str "Both") := by
            rintro (h | h) <;> contradiction
          have hvb : ¬(Val.str s = .str "Axial (Spine/Rib/Pelvis)" ∨ Val.str s = .str "Both") := by
            rintro (h | h) <;> contradiction
          simp only [refIdx, List.mem_cons, List.mem_singleton, List.not_mem_nil, or_false] at hk
          rcases hk with hk | hk <;> subst hk
          · have hrfl : ((predictionOf (setRec r CatField.fracture_site (Val.str s))).components[1]?).map
                (fun c => c.met) =
                some (decide (Val.str s = Val.str "Hip/Femur" ∨ Val.str s = Val.str "Both")) := rfl
            rw [hrfl, decide_eq_false hva]
          · have hrfl : ((predictionOf (setRec r CatField.fracture_site (Val.str s))).components[7]?).map
                (fun c => c.met) =
                some (decide (Val.str s = Val.str "Axial (Spine/Rib/Pelvis)" ∨ Val.str s = Val.str "Both")) := rfl
            rw [hrfl, decide_eq_false hvb]
        case mechanism =>
          simp only [refIdx, List.mem_singleton] at hk
          subst hk
          have hrfl : ((predictionOf (setRec r CatField.mechanism (Val.str s))).components[17]?).map
              (fun c => c.met) = some (decide (Val.str s = Val.str "Assault")) := rfl
          rw [hrfl, decide_eq_false hv]
        case transport =>
          obtain ⟨hv1, hv2⟩ := hv
          simp only [refIdx, List.mem_cons, List.mem_singleton, List.not_mem_nil, or_false] at hk
          rcases hk with hk | hk <;> subst hk
          · have hrfl : ((predictionOf (setRec r CatField.transport (Val.str s))).components[16]?).map
                (fun c => c.met) = some (decide (Val.str s = Val.str "Private Vehicle")) := rfl
            rw [hrfl, decide_eq_false hv1]
          · have hrfl : ((predictionOf (setRec r CatField.transport (Val.str s))).components[18]?).map
                (fun c => c.met) = some (decide (Val.str s = Val.str "Walk-in")) := rfl
            rw [hrfl, decide_eq_false hv2]
        case insurance =>
          obtain ⟨hv1, hv2, hv3, hv4⟩ := hv
          simp only [refIdx, List.mem_cons, List.mem_singleton, List.not_mem_nil, or_false] at hk
          rcases hk with hk | hk | hk | hk <;> subst hk
          · have hrfl : ((predictionOf (setRec r CatField.insurance (Val.str s))).components[3]?).map
                (fun c => c.met) = some (decide (Val.str s = Val.str "Medicare")) := rfl
            rw [hrfl, decide_eq_false hv1]
          · have hrfl : ((predictionOf (setRec r CatField.insurance (Val.str s))).components[5]?).map
                (fun c => c.met) = some (decide (Val.str s = Val.str "Other")) := rfl
            rw [hrfl, decide_eq_false hv2]
          · have hrfl : ((predictionOf (setRec r CatField.insurance (Val.str s))).components[8]?).map
                (fun c => c.met) = some (decide (Val.str s = Val.str "Private")) := rfl
            rw [hrfl, decide_eq_false hv3]
          · have hrfl : ((predictionOf (setRec r CatField.insurance (Val.str s))).components[9]?).map
                (fun c => c.met) = some (decide (Val.str s = Val.str "Charity")) := rfl
            rw [hrfl, decide_eq_false hv4]

/-- Witness for C7: insurance field holding the out-of-enum string
"Tricare" on the empty mapping. -/
theorem C7_witness :
    "Tricare" ∉ enumOf CatField.insurance ∧
    (compute_prediction (setCat {} CatField.insurance (some (.str "Tricare"))) =
       compute_prediction (setCat {} CatField.insurance none) ∧
     ∀ p, compute_prediction (setCat {} CatField.insurance (some (.str "Tricare"))) = some p →
       ∀ k ∈ refIdx CatField.insurance,
         (p.components[k]?.map (fun c => c.met)) = some false) :=
  ⟨by decide,
   C7_unrecognized_categorical {} CatField.insurance "Tricare" (by decide)⟩


/-- The `met` flag of the k-th component of a prediction, if any. -/
def metAt (p : Prediction) (k : ℕ) : Option Bool :=
  p.components[k]?.map (fun c => c.met)

lemma grp_gcs (g : ℚ) :
    0 ≤ (if decide (g ≤ 8) = true then (6:ℤ) else 0) +
        (if decide (9 ≤ g ∧ g ≤ 12) = true then (3:ℤ) else 0) ∧
    (if decide (g ≤ 8) = true then (6:ℤ) else 0) +
    (if decide (9 ≤ g ∧ g ≤ 12) = true then (3:ℤ) else 0) ≤ 6 := by
  simp only [decide_eq_true_eq]
  constructor <;> split_ifs with h1 h2 <;> try norm_num
  all_goals exact absurd h2.1 (by linarith)

lemma grp_age (a : ℚ) :
    0 ≤ (if decide (75 ≤ a) = true then (3:ℤ) else 0) +
        (if decide (65 ≤ a ∧ a ≤ 74) = true then (1:ℤ) else 0) ∧
    (if decide (75 ≤ a) = true then (3:ℤ) else 0) +
    (if decide (65 ≤ a ∧ a ≤ 74) = true then (1:ℤ) else 0) ≤ 3 := by
  simp only [decide_eq_true_eq]
  constructor <;> split_ifs with h1 h2 <;> try norm_num
  all_goals exact absurd h2.2 (by linarith)

lemma grp_rr (x : ℚ) :
    0 ≤ (if decide (x < 12) = true then (5:ℤ) else 0) +
        (if decide (20 < x) = true then (1:ℤ) else 0) ∧
    (if decide (x < 12) = true then (5:ℤ) else 0) +
    (if decide (20 < x) = true then (1:ℤ) else 0) ≤ 5 := by
  simp only [decide_eq_true_eq]
  constructor <;> split_ifs with h1 h2 <;> try norm_num
  all_goals exact absurd h2 (by linarith)

lemma grp_trans (v : Val) :
    -4 ≤ (if decide (v = .str "Private Vehicle") = true then (-2:ℤ) else 0) +
         (if decide (v = .str "Walk-in") = true then (-4:ℤ) else 0) ∧
    (if decide (v = .str "Private Vehicle") = true then (-2:ℤ) else 0) +
    (if decide (v = .str "Walk-in") = true then (-4:ℤ) else 0) ≤ 0 := by
  simp only [decide_eq_true_eq]
  constructor <;> split_ifs with h1 h2 <;> try norm_num
  all_goals (subst h1; exact absurd h2 (by decide))

lemma grp_ins (v : Val) :
    0 ≤ (if decide (v = .str "Medicare") = true then (4:ℤ) else 0) +
        ((if decide (v = .str "Other") = true then (4:ℤ) else 0) +
         ((if decide (v = .str "Private") = true then (3:ℤ) else 0) +
          (if decide (v = .str "Charity") = true then (3:ℤ) else 0))) ∧
    (if decide (v = .str "Medicare") = true then (4:ℤ) else 0) +
    ((if decide (v = .str "Other") = true then (4:ℤ) else 0) +
     ((if decide (v = .str "Private") = true then (3:ℤ) else 0) +
      (if decide (v = .str "Charity") = true then (3:ℤ) else 0))) ≤ 4 := by
  simp only [decide_eq_true_eq]
  constructor <;> split_ifs <;> try norm_num
  all_goals (exfalso; subst_vars; simp_all)

lemma ite_pos_bounds (c : Prop) [Decidable c] (k : ℤ) (hk : 0 ≤ k) :
    0 ≤ (if decide c = true then k else 0) ∧ (if decide c = true then k else 0) ≤ k := by
  split_ifs <;> omega

lemma ite_neg_bounds (c : Prop) [Decidable c] (k : ℤ) (hk : k ≤ 0) :
    k ≤ (if decide c = true then k else 0) ∧ (if decide c = true then k else 0) ≤ 0 := by
  split_ifs <;> omega

lemma two_str_eq_false {v : Val} {a b : String} (hab : a ≠ b)
    (ha : decide (v = .str a) = true) (hb : decide (v = .str b) = true) : False := by
  have h1 := of_decide_eq_true ha
  have h2 := of_decide_eq_true hb
  rw [h1] at h2
  exact hab (Val.str.inj h2)

/-- The raw score written as the explicit 19-term sum, for the range
proof; definitionally equal to `(predictionOf r).raw_score`. -/
def rawExpr (r : NormRecord) : ℤ :=
  (if decide (r.gcs ≤ 8) = true then (6:ℤ) else 0) +
  ((if decide (r.fracture_site = .str "Hip/Femur" ∨ r.fracture_site = .str "Both") = true then (5:ℤ) else 0) +
  ((if decide (r.rr < 12) = true then (5:ℤ) else 0) +
  ((if decide (r.insurance = .str "Medicare") = true then (4:ℤ) else 0) +
  ((if decide (r.sbp < 90) = true then (4:ℤ) else 0) +
  ((if decide (r.insurance = .str "Other") = true then (4:ℤ) else 0) +
  ((if decide (75 ≤ r.age) = true then (3:ℤ) else 0) +
  ((if decide (r.fracture_site = .str "Axial (Spine/Rib/Pelvis)" ∨ r.fracture_site = .str "Both") = true then (3:ℤ) else 0) +
  ((if decide (r.insurance = .str "Private") = true then (3:ℤ) else 0) +
  ((if decide (r.insurance = .str "Charity") = true then (3:ℤ) else 0) +
  ((if decide (9 ≤ r.gcs ∧ r.gcs ≤ 12) = true then (3:ℤ) else 0) +
  ((if decide (40 ≤ r.bmi) = true then (2:ℤ) else 0) +
  ((if decide (65 ≤ r.age ∧ r.age ≤ 74) = true then (1:ℤ) else 0) +
  ((if decide (r.sex = .str "Female") = true then (1:ℤ) else 0) +
  ((if decide (20 < r.rr) = true then (1:ℤ) else 0) +
  ((if decide (100 ≤ r.hr) = true then (1:ℤ) else 0) +
  ((if decide (r.transport = .str "Private Vehicle") = true then ((-2):ℤ) else 0) +
  ((if decide (r.mechanism = .str "Assault") = true then ((-3):ℤ) else 0) +
  ((if decide (r.transport = .str "Walk-in") = true then ((-4):ℤ) else 0) +
  (0)))))))))))))))))))

/-- C10: on every input mapping on which the engine returns, `raw_score`
lies in `[-7, 34]`; rules over the same single-valued field are mutually
exclusive: the two transport penalties cannot fire together, at most one
insurance rule fires, GCS Severe excludes GCS Moderate, Age ≥ 75 excludes
Age 65-74, and Resp Rate Low excludes Resp Rate High. -/
theorem C10_raw_score_range (i : Inputs) (p : Prediction)
    (h : compute_prediction i = some p) :
    (-7 ≤ p.raw_score ∧ p.raw_score ≤ 34) ∧
    ¬(metAt p 16 = some true ∧ metAt p 18 = some true) ∧
    ([metAt p 3, metAt p 5, metAt p 8, metAt p 9].count (some true) ≤ 1) ∧
    ¬(metAt p 0 = some true ∧ metAt p 10 = some true) ∧
    ¬(metAt p 6 = some true ∧ metAt p 12 = some true) ∧
    ¬(metAt p 2 = some true ∧ metAt p 14 = some true) := by
  obtain ⟨r, hn, rfl⟩ := compute_eq_predictionOf h
  refine ⟨?_, ?_, ?_, ?_, ?_, ?_⟩
  · have hraw : (predictionOf r).raw_score = rawExpr r := rfl
    rw [hraw]
    unfold rawExpr
    have h1 := grp_gcs r.gcs
    have h2 := grp_age r.age
    have h3 := grp_rr r.rr
    have h4 := grp_ins r.insurance
    have h5 := grp_trans r.transport
    have h6 := ite_pos_bounds
      (r.fracture_site = .str "Hip/Femur" ∨ r.fracture_site = .str "Both") 5 (by norm_num)
    have h7 := ite_pos_bounds (r.sbp < 90) 4 (by norm_num)
    have h8 := ite_pos_bounds
      (r.fracture_site = .str "Axial (Spine/Rib/Pelvis)" ∨ r.fracture_site = .str "Both") 3 (by norm_num)
    have h9 := ite_pos_bounds (40 ≤ r.bmi) 2 (by norm_num)
    have h10 := ite_pos_bounds (r.sex = .str "Female") 1 (by norm_num)
    have h11 := ite_pos_bounds (100 ≤ r.hr) 1 (by norm_num)
    have h12 := ite_neg_bounds (r.mechanism = .str "Assault") (-3) (by norm_num)
    constructor <;>
      linarith [h1.1, h1.2, h2.1, h2.2, h3.1, h3.2, h4.1, h4.2, h5.1, h5.2,
                h6.1, h6.2, h7.1, h7.2, h8.1, h8.2, h9.1, h9.2, h10.1, h10.2,
                h11.1, h11.2, h12.1, h12.2]
  · rintro ⟨ha, hb⟩
    have ea : metAt (predictionOf r) 16 =
        some (decide (r.transport = .str "Private Vehicle")) := rfl
    have eb : metAt (predictionOf r) 18 =
        some (decide (r.transport = .str "Walk-in")) := rfl
    rw [ea] at ha
    rw [eb] at hb
    exact two_str_eq_false (by decide) (Option.some.inj ha) (Option.some.inj hb)
  · have e3 : metAt (predictionOf r) 3 =
        some (decide (r.insurance = .str "Medicare")) := rfl
    have e5 : metAt (predictionOf r) 5 =
        some (decide (r.insurance = .str "Other")) := rfl
    have e8 : metAt (predictionOf r) 8 =
        some (decide (r.insurance = .str "Private")) := rfl
    have e9 : metAt (predictionOf r) 9 =
        some (decide (r.insurance = .str "Charity")) := rfl
    rw [e3, e5, e8, e9]
    cases h3 : decide (r.insurance = .str "Medicare") <;>
    cases h5 : decide (r.insurance = .str "Other") <;>
    cases h8 : decide (r.insurance = .str "Private") <;>
    cases h9 : decide (r.insurance = .str "Charity") <;>
      first
        | decide
        | exact (two_str_eq_false (by decide) h3 h5).elim
        | exact (two_str_eq_false (by decide) h3 h8).elim
        | exact (two_str_eq_false (by decide) h3 h9).elim
        | exact (two_str_eq_false (by decide) h5 h8).elim
        | exact (two_str_eq_false (by decide) h5 h9).elim
        | exact (two_str_eq_false (by decide) h8 h9).elim
  · rintro ⟨ha, hb⟩
    have ea : metAt (predictionOf r) 0 = some (decide (r.gcs ≤ 8)) := rfl
    have eb : metAt (predictionOf r) 10 =
        some (decide (9 ≤ r.gcs ∧ r.gcs ≤ 12)) := rfl
    rw [ea] at ha
    rw [eb] at hb
    have p1 := of_decide_eq_true (Option.some.inj ha)
    have p2 := of_decide_eq_true (Option.some.inj hb)
    linarith [p2.1]
  · rintro ⟨ha, hb⟩
    have ea : metAt (predictionOf r) 6 = some (decide (75 ≤ r.age)) := rfl
    have eb : metAt (predictionOf r) 12 =
        some (decide (65 ≤ r.age ∧ r.age ≤ 74)) := rfl
    rw [ea] at ha
    rw [eb] at hb
    have p1 := of_decide_eq_true (Option.some.inj ha)
    have p2 := of_decide_eq_true (Option.some.inj hb)
    linarith [p2.2]
  · rintro ⟨ha, hb⟩
    have ea : metAt (predictionOf r) 2 = some (decide (r.rr < 12)) := rfl
    have eb : metAt (predictionOf r) 14 = some (decide (20 < r.rr)) := rfl
    rw [ea] at ha
    rw [eb] at hb
    have p1 := of_decide_eq_true (Option.some.inj ha)
    have p2 := of_decide_eq_true (Option.some.inj hb)
    linarith

/-- Witness for C10 at the empty input mapping. -/
theorem C10_witness :
    compute_prediction {} = some basePrediction ∧
    ((-7 ≤ basePrediction.raw_score ∧ basePrediction.raw_score ≤ 34) ∧
     ¬(metAt basePrediction 16 = some true ∧ metAt basePrediction 18 = some true) ∧
     ([metAt basePrediction 3, metAt basePrediction 5, metAt basePrediction 8,
       metAt basePrediction 9].count (some true) ≤ 1) ∧
     ¬(metAt basePrediction 0 = some true ∧ metAt basePrediction 10 = some true) ∧
     ¬(metAt basePrediction 6 = some true ∧ metAt basePrediction 12 = some true) ∧
     ¬(metAt basePrediction 2 = some true ∧ metAt basePrediction 14 = some true)) :=
  ⟨compute_empty, C10_raw_score_range {} basePrediction compute_empty⟩

end Ford
